import Mathlib

/-!
Verification development for the nutrition-extraction pipeline of
o-calorista (`src/fatsecret.ts`).

The TypeScript code is shallowly embedded:

* JavaScript numbers are modelled as exact rationals (`ℚ`).  A JavaScript
  expression that can evaluate to `NaN` is modelled as `Option ℚ`, with
  `none` standing for `NaN`.
* The cheerio-parsed HTML documents are modelled at the level at which the
  code queries them: a search-results page is the list of `table.searchResult
  tr` rows (each row carrying its `a.prominent` link, `a.brand` text and
  `.smallText.greyText` info text), and a food detail page carries the `h1`
  text, the serving-size text, the `.nutrition_facts .tRight` texts and the
  `.nutrition_facts .nutrient` elements (with their `left`/`sub` classes and
  the text of the next sibling when that sibling has class `tRight`).
* The OpenAI calls are modelled by an `OracleOutcome` input: the call can
  reject (`crash`, an awaited exception), deliver a message without content
  (`noContent`), or deliver content whose JSON payload either fails to parse
  (`content none`) or yields the schema's numeric field (`content (some q)`).
* Fallible TypeScript code (functions that can throw) returns
  `Except String`.
-/

/-- JavaScript `String.prototype.includes` on lists of characters:
`hasSubSeq pat s` is true when `pat` occurs contiguously inside `s`. -/
def matchesAt : List Char → List Char → Bool
  | [], _ => true
  | _ :: _, [] => false
  | a :: as, b :: bs => a == b && matchesAt as bs

/-- Scans `s` for an occurrence of `pat` (contiguous). -/
def hasSubSeq (pat : List Char) : List Char → Bool
  | [] => pat.isEmpty
  | c :: t => matchesAt pat (c :: t) || hasSubSeq pat t

/-- JavaScript `s.includes(pat)`. -/
def jsIncludes (s pat : String) : Bool :=
  hasSubSeq pat.data s.data

/-- JavaScript `s.toLowerCase()` (character-wise lowering; the labels this
code lowers are ASCII apart from already-lowercase accented letters, which
both JavaScript and `Char.toLower` leave unchanged). -/
def jsToLower (s : String) : String :=
  String.mk (s.data.map Char.toLower)

/-- Characters treated as whitespace by JavaScript `trim`. -/
def jsTrimmable (c : Char) : Bool :=
  c == ' ' || c == '\t' || c == '\n' || c == '\r' || c == '\x0b' || c == '\x0c'

/-- JavaScript `s.trim()`. -/
def jsTrim (s : String) : String :=
  String.mk (((s.data.dropWhile jsTrimmable).reverse.dropWhile jsTrimmable).reverse)

/-- Emptiness of a string, at the character-list level. -/
def jsEmpty (s : String) : Bool :=
  s.data.isEmpty

/-- JavaScript `s.startsWith(pat)`. -/
def jsStartsWith (s pat : String) : Bool :=
  matchesAt pat.data s.data

/-- JavaScript `s.replace(",", ".")`: replaces only the first comma. -/
def replaceFirstComma : List Char → List Char
  | [] => []
  | c :: t => if c == ',' then '.' :: t else c :: replaceFirstComma t

/-- Value of a list of decimal digit characters. -/
def digitsToNat (l : List Char) : ℕ :=
  l.foldl (fun a c => 10 * a + (c.toNat - 48)) 0

/-- Digit-level part of JavaScript `parseFloat`: an optional integer part,
optionally followed by `.` and a fractional part; at least one digit must be
read, otherwise the result is `NaN` (`none`).  Scanning stops at the first
character that cannot extend the number, exactly as `parseFloat` does.
Returns (integer part, fractional part, number of fractional digits). -/
def parseDigits (cs : List Char) : Option (ℕ × ℕ × ℕ) :=
  let ip := cs.takeWhile Char.isDigit
  let r1 := cs.drop ip.length
  let fp := match r1 with
    | '.' :: t => t.takeWhile Char.isDigit
    | _ => []
  if ip.isEmpty && fp.isEmpty then none
  else some (digitsToNat ip, digitsToNat fp, fp.length)

/-- The rational value of a scanned mantissa. -/
def mantissaVal (i f k : ℕ) : ℚ :=
  (i : ℚ) + (f : ℚ) / (10 : ℚ) ^ k

/-- Unsigned part of JavaScript `parseFloat`. -/
def parseMantissa (cs : List Char) : Option ℚ :=
  (parseDigits cs).map (fun p => mantissaVal p.1 p.2.1 p.2.2)

/-- JavaScript `parseFloat` on the strings this code ever feeds it (cleaned
strings over digits, `,`, `.` and `-`; no whitespace or exponents survive the
cleaning).  `none` models `NaN`. -/
def jsParseFloat (s : String) : Option ℚ :=
  match s.data with
  | [] => parseMantissa []
  | c :: t =>
    if c == '-' then (parseMantissa t).map (fun q => -q)
    else if c == '+' then parseMantissa t
    else parseMantissa (c :: t)

/-- JavaScript `Math.round`: rounds half toward positive infinity. -/
def jsRound (q : ℚ) : ℚ :=
  ((Int.floor (q + 1 / 2) : ℤ) : ℚ)

/-- The rounding helper `(n) => Math.round(n * 100) / 100` that appears in
`scaleNutritionalValues` and `roundAggregate`. -/
def round2 (q : ℚ) : ℚ :=
  jsRound (q * 100) / 100

/-- Characters matched by `\s` in the JavaScript regexes used here. -/
def jsIsSpace (c : Char) : Bool :=
  c == ' ' || c == '\t' || c == '\n' || c == '\r' || c == '\x0b' || c == '\x0c'

/-- Characters matched by the capture class `[\d,]`. -/
def isDigitComma (c : Char) : Bool :=
  c.isDigit || c == ','

/-- JavaScript array indexing `l[q]` by an arbitrary number: an element is
produced only for an in-range integer index; everything else is `undefined`
(`none`). -/
def jsIndex {α : Type} (l : List α) (q : ℚ) : Option α :=
  if q.den = 1 ∧ 0 ≤ q.num then l.get? q.num.toNat else none

/-- JavaScript truthiness of an optional string (`undefined` and `""` are
falsy). -/
def jsTruthy : Option String → Bool
  | none => false
  | some s => !jsEmpty s

/-- Base URL constant `FATSECRET_BASE_URL`. -/
def fatsecretBaseUrl : String := "https://www.fatsecret.com.br"

/-- The `a.prominent` anchor of a search-result row: its text and its
optional `href` attribute. -/
structure SearchLink where
  text : String
  href : Option String
deriving DecidableEq

/-- One `table.searchResult tr` row, as queried by `parseSearchResults`:
the optional prominent link, the optional `a.brand` text, and the combined
text of the row's `.smallText.greyText` elements. -/
structure SearchRow where
  link : Option SearchLink
  brand : Option String
  infoText : String
deriving DecidableEq

/-- `FoodSearchResult` from `types.ts`.  The four macro fields are JavaScript
numbers that can be `NaN`, hence `Option ℚ` (`none` = `NaN`). -/
structure FoodSearchResult where
  name : String
  brand : Option String
  url : String
  caloriesPer100g : Option ℚ
  fatPer100g : Option ℚ
  carbsPer100g : Option ℚ
  proteinPer100g : Option ℚ
deriving DecidableEq

/-- Drops `key` from the front of `s` when `key` is literally there. -/
def dropExact : List Char → List Char → Option (List Char)
  | [], s => some s
  | _ :: _, [] => none
  | a :: as, b :: bs => if a == b then dropExact as bs else none

/-- Attempts to match `key \s* ([\d,]+) \s* unit` at the start of `s`,
returning the capture.  The character classes of the regex are pairwise
disjoint, so greedy maximal munch is exact. -/
def tryAt (key unit : List Char) (s : List Char) : Option (List Char) :=
  match dropExact key s with
  | none => none
  | some s1 =>
    let s2 := s1.dropWhile jsIsSpace
    let cap := s2.takeWhile isDigitComma
    if cap.isEmpty then none
    else
      match dropExact unit ((s2.drop cap.length).dropWhile jsIsSpace) with
      | none => none
      | some _ => some cap

/-- Unanchored regex search: tries `tryAt` at every start position, leftmost
match first, exactly like `String.prototype.match` with a non-global regex. -/
def scanPattern (key unit : List Char) : List Char → Option (List Char)
  | [] => none
  | c :: t =>
    match tryAt key unit (c :: t) with
    | some cap => some cap
    | none => scanPattern key unit t

/-- One coarse-macro extraction of `parseSearchResults`: regex capture
followed by the local `parseNumber` (`parseFloat` after turning the first
comma into a dot; a failed regex match yields `0`, and there is no `|| 0`
guard, so a capture that `parseFloat` cannot read is `NaN`). -/
def parseMacroField (key unit info : String) : Option ℚ :=
  match scanPattern key.data unit.data info.data with
  | none => some 0
  | some cap => jsParseFloat (String.mk (replaceFirstComma cap))

/-- The `Calorias:`-pattern field of a row's info text. -/
def macroCalories (info : String) : Option ℚ :=
  parseMacroField "Calorias:" "kcal" info

/-- The `Gord:`-pattern field of a row's info text. -/
def macroFat (info : String) : Option ℚ :=
  parseMacroField "Gord:" "g" info

/-- The `Carbs:`-pattern field of a row's info text. -/
def macroCarbs (info : String) : Option ℚ :=
  parseMacroField "Carbs:" "g" info

/-- The `Prot:`-pattern field of a row's info text. -/
def macroProtein (info : String) : Option ℚ :=
  parseMacroField "Prot:" "g" info

/-- Whether a row passes both early-return guards of `parseSearchResults`:
it has an `a.prominent` anchor and that anchor has a truthy `href`. -/
def rowHasLink (r : SearchRow) : Bool :=
  match r.link with
  | some l =>
    match l.href with
    | some h => !jsEmpty h
    | none => false
  | none => false

/-- Strips `(` and `)` and trims, as the brand text is cleaned. -/
def cleanBrand (b : String) : String :=
  jsTrim (String.mk (b.data.filter (fun c => !(c == '(' || c == ')'))))

/-- The candidate pushed for one row of `parseSearchResults`, or `none` when
one of the two early-return guards fires. -/
def rowCandidate (r : SearchRow) : Option FoodSearchResult :=
  match r.link with
  | none => none
  | some l =>
    match l.href with
    | none => none
    | some href =>
      if jsEmpty href then none
      else
        some { name := jsTrim l.text,
               brand := r.brand.map cleanBrand,
               url := if jsStartsWith href "http" then href else fatsecretBaseUrl ++ href,
               caloriesPer100g := macroCalories r.infoText,
               fatPer100g := macroFat r.infoText,
               carbsPer100g := macroCarbs r.infoText,
               proteinPer100g := macroProtein r.infoText }

/-- `parseSearchResults`: one candidate per row that passes the guards, in
document order, then `slice(0, 10)`. -/
def parseSearchResults (rows : List SearchRow) : List FoodSearchResult :=
  (rows.filterMap rowCandidate).take 10

/-- Outcome of one awaited `openai.chat.completions.create` call.  `crash`:
the awaited promise rejects (no call site wraps the await in `try`, so this
propagates).  `noContent`: `response.choices[0]?.message?.content` is
null or undefined.  `content p`: content is present; `p` is `none` when
`JSON.parse` throws on it, and `some q` when the schema's numeric field is
`q` (the structured-output schema constrains the payload to a single
`number` field, which JSON does not force to be an integer). -/
inductive OracleOutcome where
  | crash
  | noContent
  | content (payload : Option ℚ)
deriving DecidableEq

/-- `selectBestMatch`.  Result `Except.error` models a thrown exception;
`Except.ok none` models the function returning `undefined` (which happens
when `searchResults[selectedIndex]` is read at a non-integer index that
passes the bounds check); `Except.ok (some c)` is a normal return. -/
def selectBestMatch (foodName : String) (searchResults : List FoodSearchResult)
    (outcome : OracleOutcome) : Except String (Option FoodSearchResult) :=
  if searchResults.isEmpty then
    Except.error ("No search results found for " ++ foodName)
  else if searchResults.length == 1 then
    Except.ok searchResults.head?
  else
    match outcome with
    | .crash => Except.error "openai.chat.completions.create rejected"
    | .noContent => Except.ok searchResults.head?
    | .content none => Except.ok searchResults.head?
    | .content (some foodItem) =>
      let selectedIndex := foodItem - 1
      if selectedIndex < 0 ∨ (searchResults.length : ℚ) ≤ selectedIndex then
        Except.ok searchResults.head?
      else
        Except.ok (jsIndex searchResults selectedIndex)

/-- One `.nutrition_facts .nutrient` element of a detail page: its `left`
and `sub` classes, its text, and the text of its next sibling when that
sibling has class `tRight` (`none` when there is no next sibling or it lacks
the class). -/
structure NutrientEl where
  left : Bool
  sub : Bool
  text : String
  nextTRight : Option String
deriving DecidableEq

/-- A food detail page as queried by `parseNutritionalValues` and
`calculateServingSize`: the `h1` text, the
`.nutrition_facts .serving_size_value` text, the texts of the
`.nutrition_facts .tRight` elements in document order, and the
`.nutrition_facts .nutrient` elements in document order. -/
structure DetailPage where
  h1Text : String
  servingSizeText : String
  tRightTexts : List String
  nutrients : List NutrientEl
deriving DecidableEq

/-- The cleaning step of the local `parseNumber` of
`parseNutritionalValues`: strip everything but digits, commas, dots and
minus signs, then turn the first comma into a dot. -/
def cleanNumericText (s : String) : String :=
  String.mk (replaceFirstComma (s.data.filter (fun c => c.isDigit || c == ',' || c == '.' || c == '-')))

/-- The local `parseNumber` of `parseNutritionalValues`: clean the text,
`parseFloat`, and coalesce `NaN` (and `-0`) to `0` via `|| 0`.  Note that a
leading minus sign survives the cleaning, so the result can be negative. -/
def parseNumberDetail (s : String) : ℚ :=
  (jsParseFloat (cleanNumericText s)).getD 0

/-- One step of the energy scan over the `.tRight` texts: a text containing
`kj` overwrites the kJ slot, otherwise one containing `kcal` overwrites the
kcal slot. -/
def energyStep (st : ℚ × ℚ) (t : String) : ℚ × ℚ :=
  if jsIncludes t "kj" then (parseNumberDetail t, st.2)
  else if jsIncludes t "kcal" then (st.1, parseNumberDetail t)
  else st

/-- One step of `findNutrient`'s `each` loop: a main row (class `left`, not
`sub`) whose lowercased text contains the lowercased label overwrites the
value with the parsed text of its `tRight` next sibling. -/
def mainRowStep (label : String) (value : ℚ) (e : NutrientEl) : ℚ :=
  if e.left && !e.sub && jsIncludes (jsToLower e.text) (jsToLower label) then
    match e.nextTRight with
    | some t => parseNumberDetail t
    | none => value
  else value

/-- `findNutrient`: fold the main-row step over all `.nutrient` elements
(the last matching row wins), starting from `0`. -/
def findNutrient (els : List NutrientEl) (label : String) : ℚ :=
  els.foldl (mainRowStep label) 0

/-- The lowercased, trimmed text a sub-row is matched on. -/
def subText (e : NutrientEl) : String :=
  jsTrim (jsToLower e.text)

/-- The sub-row label matcher of `findSubNutrient`: `saturada` must equal
`gordura saturada` exactly; `monoinsaturada` and `poliinsaturada` are
substring matches of themselves; any other label is a substring match. -/
def subMatches (label text : String) : Bool :=
  let labelLower := jsToLower label
  if labelLower == "saturada" then text == "gordura saturada"
  else if labelLower == "monoinsaturada" then jsIncludes text "monoinsaturada"
  else if labelLower == "poliinsaturada" then jsIncludes text "poliinsaturada"
  else jsIncludes text labelLower

/-- One step of `findSubNutrient`'s `each` loop. -/
def subRowStep (label : String) (value : ℚ) (e : NutrientEl) : ℚ :=
  if subMatches label (subText e) then
    match e.nextTRight with
    | some t => parseNumberDetail t
    | none => value
  else value

/-- `findSubNutrient`: fold the sub-row step over the
`.nutrient.sub.left` elements (the last matching row wins), starting
from `0`. -/
def findSubNutrient (els : List NutrientEl) (label : String) : ℚ :=
  (els.filter (fun e => e.sub && e.left)).foldl (subRowStep label) 0

/-- The `energy` sub-record of `NutritionalValues`. -/
structure EnergyVals where
  kj : ℚ
  kcal : ℚ
deriving DecidableEq

/-- The `fat` sub-record of `NutritionalValues`. -/
structure FatVals where
  total : ℚ
  saturated : ℚ
  trans : ℚ
  monounsaturated : ℚ
  polyunsaturated : ℚ
deriving DecidableEq

/-- `NutritionalValues` from `types.ts`. -/
structure NutritionalValues where
  name : String
  servingSize : String
  energy : EnergyVals
  carbohydrates : ℚ
  sugar : ℚ
  protein : ℚ
  fat : FatVals
  cholesterol : ℚ
  fiber : ℚ
  sodium : ℚ
  potassium : ℚ
deriving DecidableEq

/-- `parseNutritionalValues`: the detail-page extractor.  Total: it always
returns a structurally complete record (the TypeScript function never
throws). -/
def parseNutritionalValues (page : DetailPage) (foodName : String) : NutritionalValues :=
  let pageName := if jsEmpty (jsTrim page.h1Text) then foodName else jsTrim page.h1Text
  let servingSize := if jsEmpty (jsTrim page.servingSizeText) then "100 g" else jsTrim page.servingSizeText
  let energy := page.tRightTexts.foldl energyStep (0, 0)
  { name := pageName,
    servingSize := servingSize,
    energy := { kj := energy.1, kcal := energy.2 },
    carbohydrates := findNutrient page.nutrients "carboidrato",
    sugar := findSubNutrient page.nutrients "açúcar",
    protein := findNutrient page.nutrients "proteína",
    fat := { total := findNutrient page.nutrients "gordura",
             saturated := findSubNutrient page.nutrients "saturada",
             trans := findSubNutrient page.nutrients "trans",
             monounsaturated := findSubNutrient page.nutrients "monoinsaturada",
             polyunsaturated := findSubNutrient page.nutrients "poliinsaturada" },
    cholesterol := findNutrient page.nutrients "colesterol",
    fiber := findNutrient page.nutrients "fibra",
    sodium := findNutrient page.nutrients "sódio",
    potassium := findNutrient page.nutrients "potássio" }

/-- `scaleNutritionalValues`: every numeric field is multiplied by the
multiplier and rounded to 2 decimals; `name` and `servingSize` are spread
through unchanged. -/
def scaleNutritionalValues (values : NutritionalValues) (multiplier : ℚ) : NutritionalValues :=
  { values with
    energy := { kj := round2 (values.energy.kj * multiplier),
                kcal := round2 (values.energy.kcal * multiplier) },
    carbohydrates := round2 (values.carbohydrates * multiplier),
    sugar := round2 (values.sugar * multiplier),
    protein := round2 (values.protein * multiplier),
    fat := { total := round2 (values.fat.total * multiplier),
             saturated := round2 (values.fat.saturated * multiplier),
             trans := round2 (values.fat.trans * multiplier),
             monounsaturated := round2 (values.fat.monounsaturated * multiplier),
             polyunsaturated := round2 (values.fat.polyunsaturated * multiplier) },
    cholesterol := round2 (values.cholesterol * multiplier),
    fiber := round2 (values.fiber * multiplier),
    sodium := round2 (values.sodium * multiplier),
    potassium := round2 (values.potassium * multiplier) }

/-- `calculateServingSize`.  The prompt built from `foodName`,
`userServing` and the detail page only influences the oracle's answer,
which is the free `outcome` input here, so the prompt construction
(`extractServingOptions` and the two text extractions, none of which can
throw) does not appear in the result.  Only `JSON.parse` sits inside a
`try`; a rejection of the awaited API call itself propagates. -/
def calculateServingSize (foodName userServing : String) (page : DetailPage)
    (outcome : OracleOutcome) : Except String ℚ :=
  match outcome with
  | .crash => Except.error "openai.chat.completions.create rejected"
  | .noContent => Except.ok 100
  | .content none => Except.ok 100
  | .content (some gramsAmount) =>
    Except.ok (if 0 < gramsAmount then gramsAmount else 100)

/-- `ServingInfo` from `types.ts`. -/
structure ServingInfo where
  userServing : String
  gramsAmount : ℚ
  multiplier : ℚ
deriving DecidableEq

/-- `FoodNutritionalResponse` from `types.ts`. -/
structure FoodNutritionalResponse where
  searchQuery : String
  selectedFood : String
  nutritionalValues : NutritionalValues
  sourceUrl : String
  serving : Option ServingInfo
deriving DecidableEq

/-- The external world one `getFoodNutritionalValues` call sees: the fetched
search-results document, the outcome of the selection oracle call, the
fetched detail page of the selected food, and the outcome of the
serving-size oracle call.  Fetch transport failures abort before any of the
logic under verification runs, so the environment models the two documents
as already fetched. -/
structure ItemEnv where
  searchRows : List SearchRow
  selectOutcome : OracleOutcome
  detailPage : DetailPage
  servingOutcome : OracleOutcome
deriving DecidableEq

/-- `getFoodNutritionalValues` (options form), after the two HTTP fetches.
`Except.error` models a thrown exception.  The serving branch runs only when
`serving` is truthy (present and non-empty). -/
def getFoodNutritionalValues (foodName : String) (serving : Option String)
    (env : ItemEnv) : Except String FoodNutritionalResponse :=
  let searchResults := parseSearchResults env.searchRows
  if searchResults.isEmpty then
    Except.error ("No food items found for " ++ foodName)
  else
    match selectBestMatch foodName searchResults env.selectOutcome with
    | Except.error e => Except.error e
    | Except.ok none => Except.error "TypeError: cannot read url of undefined"
    | Except.ok (some bestMatch) =>
      let parsed := parseNutritionalValues env.detailPage bestMatch.name
      if jsTruthy serving then
        match calculateServingSize foodName (serving.getD "") env.detailPage env.servingOutcome with
        | Except.error e => Except.error e
        | Except.ok gramsAmount =>
          let multiplier := gramsAmount / 100
          let scaled := scaleNutritionalValues parsed multiplier
          Except.ok
            { searchQuery := foodName,
              selectedFood := bestMatch.name,
              nutritionalValues :=
                { scaled with
                  servingSize := toString gramsAmount ++ "g (" ++ serving.getD "" ++ ")" },
              sourceUrl := bestMatch.url,
              serving := some { userServing := serving.getD "",
                                gramsAmount := gramsAmount,
                                multiplier := multiplier } }
      else
        Except.ok
          { searchQuery := foodName,
            selectedFood := bestMatch.name,
            nutritionalValues := parsed,
            sourceUrl := bestMatch.url,
            serving := none }

/-- `FoodItem` from `types.ts`. -/
structure FoodItem where
  foodName : String
  serving : String
deriving DecidableEq

/-- `AggregatedFoodItemDetail` from `types.ts`. -/
structure AggregatedFoodItemDetail where
  foodName : String
  selectedFood : String
  serving : String
  gramsAmount : ℚ
  nutritionalValues : NutritionalValues
  sourceUrl : String
deriving DecidableEq

/-- `AggregateNutritionalValues` from `types.ts` (the totals vector,
without `name`/`servingSize`). -/
structure AggregateNutritionalValues where
  energy : EnergyVals
  carbohydrates : ℚ
  sugar : ℚ
  protein : ℚ
  fat : FatVals
  cholesterol : ℚ
  fiber : ℚ
  sodium : ℚ
  potassium : ℚ
deriving DecidableEq

/-- `AggregateNutritionalResponse` from `types.ts`. -/
structure AggregateNutritionalResponse where
  itemCount : ℕ
  totalGrams : ℚ
  totals : AggregateNutritionalValues
  items : List AggregatedFoodItemDetail
deriving DecidableEq

/-- `createEmptyAggregate`. -/
def createEmptyAggregate : AggregateNutritionalValues :=
  { energy := { kj := 0, kcal := 0 },
    carbohydrates := 0,
    sugar := 0,
    protein := 0,
    fat := { total := 0, saturated := 0, trans := 0,
             monounsaturated := 0, polyunsaturated := 0 },
    cholesterol := 0,
    fiber := 0,
    sodium := 0,
    potassium := 0 }

/-- `addToAggregate`, as a pure function on the aggregate it mutates. -/
def addToAggregate (a : AggregateNutritionalValues) (v : NutritionalValues) :
    AggregateNutritionalValues :=
  { energy := { kj := a.energy.kj + v.energy.kj, kcal := a.energy.kcal + v.energy.kcal },
    carbohydrates := a.carbohydrates + v.carbohydrates,
    sugar := a.sugar + v.sugar,
    protein := a.protein + v.protein,
    fat := { total := a.fat.total + v.fat.total,
             saturated := a.fat.saturated + v.fat.saturated,
             trans := a.fat.trans + v.fat.trans,
             monounsaturated := a.fat.monounsaturated + v.fat.monounsaturated,
             polyunsaturated := a.fat.polyunsaturated + v.fat.polyunsaturated },
    cholesterol := a.cholesterol + v.cholesterol,
    fiber := a.fiber + v.fiber,
    sodium := a.sodium + v.sodium,
    potassium := a.potassium + v.potassium }

/-- `roundAggregate`: every field rounded to 2 decimals. -/
def roundAggregate (a : AggregateNutritionalValues) : AggregateNutritionalValues :=
  { energy := { kj := round2 a.energy.kj, kcal := round2 a.energy.kcal },
    carbohydrates := round2 a.carbohydrates,
    sugar := round2 a.sugar,
    protein := round2 a.protein,
    fat := { total := round2 a.fat.total,
             saturated := round2 a.fat.saturated,
             trans := round2 a.fat.trans,
             monounsaturated := round2 a.fat.monounsaturated,
             polyunsaturated := round2 a.fat.polyunsaturated },
    cholesterol := round2 a.cholesterol,
    fiber := round2 a.fiber,
    sodium := round2 a.sodium,
    potassium := round2 a.potassium }

/-- `result.serving?.gramsAmount ?? 100` in the aggregate loop. -/
def gramsOf (r : FoodNutritionalResponse) : ℚ :=
  (r.serving.map ServingInfo.gramsAmount).getD 100

/-- The detail record pushed for one item of the aggregate loop. -/
def mkDetail (item : FoodItem) (result : FoodNutritionalResponse) :
    AggregatedFoodItemDetail :=
  { foodName := item.foodName,
    selectedFood := result.selectedFood,
    serving := item.serving,
    gramsAmount := gramsOf result,
    nutritionalValues := result.nutritionalValues,
    sourceUrl := result.sourceUrl }

/-- The mutable state of the aggregate loop (`aggregate`, `totalGrams`,
`itemDetails`). -/
structure AggState where
  aggregate : AggregateNutritionalValues
  totalGrams : ℚ
  details : List AggregatedFoodItemDetail
deriving DecidableEq

/-- One iteration of the `for (const item of items)` loop of
`getAggregateNutritionalValues`; a thrown item resolution aborts the loop. -/
def aggStep (st : AggState) (it : FoodItem × ItemEnv) : Except String AggState :=
  match getFoodNutritionalValues it.1.foodName (some it.1.serving) it.2 with
  | Except.error e => Except.error e
  | Except.ok result =>
    Except.ok
      { aggregate := addToAggregate st.aggregate result.nutritionalValues,
        totalGrams := st.totalGrams + gramsOf result,
        details := st.details ++ [mkDetail it.1 result] }

/-- The aggregate loop, sequential and in input order. -/
def aggLoop (st : AggState) : List (FoodItem × ItemEnv) → Except String AggState
  | [] => Except.ok st
  | it :: rest =>
    match aggStep st it with
    | Except.error e => Except.error e
    | Except.ok st1 => aggLoop st1 rest

/-- `getAggregateNutritionalValues`.  Each item carries its own external
environment (its fetched documents and oracle outcomes). -/
def getAggregateNutritionalValues (items : List (FoodItem × ItemEnv)) :
    Except String AggregateNutritionalResponse :=
  if items.isEmpty then
    Except.ok { itemCount := 0, totalGrams := 0,
                totals := createEmptyAggregate, items := [] }
  else
    match aggLoop { aggregate := createEmptyAggregate, totalGrams := 0, details := [] } items with
    | Except.error e => Except.error e
    | Except.ok st =>
      Except.ok { itemCount := items.length,
                  totalGrams := round2 st.totalGrams,
                  totals := roundAggregate st.aggregate,
                  items := st.details }

/-- Bool-valued: the string contains no minus sign (so `parseNumber` cannot
produce a negative value from it). -/
def textNoMinus (s : String) : Bool :=
  !(s.data.any (fun c => c == '-'))

/-- The value text a nutrient element can contribute (its `tRight` next
sibling) contains no minus sign. -/
def nextNoMinus (e : NutrientEl) : Bool :=
  match e.nextTRight with
  | some t => textNoMinus t
  | none => true

/-- No text that a numeric field of the detail page is parsed from contains
a minus sign. -/
def pageNoMinus (p : DetailPage) : Bool :=
  p.tRightTexts.all textNoMinus && p.nutrients.all nextNoMinus

/-- A well-formed search-result row: it has a prominent link with a truthy
`href`, and each of the four coarse-macro extractions from its info text
produces an actual number (not `NaN`). -/
def wellFormedRow (r : SearchRow) : Bool :=
  rowHasLink r && (macroCalories r.infoText).isSome && (macroFat r.infoText).isSome &&
    (macroCarbs r.infoText).isSome && (macroProtein r.infoText).isSome

/-- A detail page with nothing on it. -/
def emptyDetailPage : DetailPage :=
  { h1Text := "", servingSizeText := "", tRightTexts := [], nutrients := [] }

/-- A concrete candidate used in closed instances. -/
def sampleCandA : FoodSearchResult :=
  { name := "A", brand := none, url := "u1",
    caloriesPer100g := some 0, fatPer100g := some 0,
    carbsPer100g := some 0, proteinPer100g := some 0 }

/-- A second concrete candidate used in closed instances. -/
def sampleCandB : FoodSearchResult :=
  { name := "B", brand := none, url := "u2",
    caloriesPer100g := some 0, fatPer100g := some 0,
    carbsPer100g := some 0, proteinPer100g := some 0 }

/-- A detail page whose kcal value text carries a minus sign. -/
def negativeKcalPage : DetailPage :=
  { h1Text := "Frango", servingSizeText := "", tRightTexts := ["-5kcal"], nutrients := [] }

/-- A detail page with no minus sign in any value text. -/
def minusFreePage : DetailPage :=
  { h1Text := "Carne", servingSizeText := "100 g",
    tRightTexts := ["655kj", "156kcal"],
    nutrients := [{ left := true, sub := false, text := "Proteínas", nextTRight := some "20,7g" }] }

/-- A search row shaped like the repository's test fixture. -/
def fixtureRow : SearchRow :=
  { link := some { text := " Carne Moída Refogada ", href := some "/calorias/carne-moida" },
    brand := none,
    infoText := "Calorias: 212kcal | Gord: 10,85g | Carbs: 0,0g | Prot: 26,77g" }

/-- A minimal search row with a link and an empty info text. -/
def plainRow : SearchRow :=
  { link := some { text := "A", href := some "/x" }, brand := none, infoText := "" }

/-- A minimal detail page with only an `h1`. -/
def plainPage : DetailPage :=
  { h1Text := "A", servingSizeText := "", tRightTexts := [], nutrients := [] }

/-- An environment whose oracles would reject if they were consulted. -/
def plainEnv : ItemEnv :=
  { searchRows := [plainRow], selectOutcome := OracleOutcome.crash,
    detailPage := plainPage, servingOutcome := OracleOutcome.crash }

/-- An aggregate item with an empty serving string, in the plain
environment. -/
def plainItem : FoodItem × ItemEnv :=
  ({ foodName := "a", serving := "" }, plainEnv)

/-- What `parseNutritionalValues` yields on `plainPage`. -/
def plainValues : NutritionalValues :=
  { name := "A", servingSize := "100 g", energy := { kj := 0, kcal := 0 },
    carbohydrates := 0, sugar := 0, protein := 0,
    fat := { total := 0, saturated := 0, trans := 0, monounsaturated := 0, polyunsaturated := 0 },
    cholesterol := 0, fiber := 0, sodium := 0, potassium := 0 }

/-- What `getFoodNutritionalValues "a" (some "") plainEnv` yields. -/
def plainResponse : FoodNutritionalResponse :=
  { searchQuery := "a", selectedFood := "A", nutritionalValues := plainValues,
    sourceUrl := "https://www.fatsecret.com.br/x", serving := none }

/-- What aggregating the single `plainItem` yields. -/
def plainAggResponse : AggregateNutritionalResponse :=
  { itemCount := 1, totalGrams := 100,
    totals := createEmptyAggregate,
    items := [{ foodName := "a", selectedFood := "A", serving := "",
                gramsAmount := 100, nutritionalValues := plainValues,
                sourceUrl := "https://www.fatsecret.com.br/x" }] }

/-- A search row for the half-serving scenario. -/
def halfSearchRow : SearchRow :=
  { link := some { text := "Teste", href := some "/t" }, brand := none, infoText := "" }

/-- A detail page reading 0.01 kcal per 100 g. -/
def halfDetailPage : DetailPage :=
  { h1Text := "Teste", servingSizeText := "", tRightTexts := ["0,01kcal"], nutrients := [] }

/-- An environment where the detail page reads 0.01 kcal per 100 g and the
serving oracle answers 50 grams (multiplier 0.5). -/
def halfServingEnv : ItemEnv :=
  { searchRows := [halfSearchRow],
    selectOutcome := OracleOutcome.noContent,
    detailPage := halfDetailPage,
    servingOutcome := OracleOutcome.content (some 50) }

/-- The candidate extracted from the half-serving search row. -/
def halfCand : FoodSearchResult :=
  { name := "Teste", brand := none, url := "https://www.fatsecret.com.br/t",
    caloriesPer100g := some 0, fatPer100g := some 0,
    carbsPer100g := some 0, proteinPer100g := some 0 }

/-- The response produced for the half-serving item. -/
def halfResponse : FoodNutritionalResponse :=
  { searchQuery := "teste", selectedFood := "Teste",
    nutritionalValues :=
      { scaleNutritionalValues (parseNutritionalValues halfDetailPage "Teste") (50 / 100) with
        servingSize := toString (50 : ℚ) ++ "g (" ++ "metade" ++ ")" },
    sourceUrl := "https://www.fatsecret.com.br/t",
    serving := some { userServing := "metade", gramsAmount := 50, multiplier := 50 / 100 } }

/-- An aggregate item whose exact scaled kcal value is 0.005. -/
def halfServingItem : FoodItem × ItemEnv :=
  ({ foodName := "teste", serving := "metade" }, halfServingEnv)

/-- Decidable equality for `Except`, so that concrete runs of the embedded
functions can be checked by evaluation. -/
instance exceptDecidableEq {ε α : Type} [DecidableEq ε] [DecidableEq α] :
    DecidableEq (Except ε α) := fun x y =>
  match x, y with
  | .error a, .error b =>
    if h : a = b then isTrue (by rw [h]) else
      isFalse (fun hh => by cases hh; exact h rfl)
  | .ok a, .ok b =>
    if h : a = b then isTrue (by rw [h]) else
      isFalse (fun hh => by cases hh; exact h rfl)
  | .error _, .ok _ => isFalse (fun h => Except.noConfusion h)
  | .ok _, .error _ => isFalse (fun h => Except.noConfusion h)

/-- C9: aggregating the empty item list returns, without error, a response
with `itemCount = 0`, `totalGrams = 0`, an all-zero totals vector and an
empty items list. -/
theorem claim9_empty_aggregate :
    getAggregateNutritionalValues [] =
      Except.ok { itemCount := 0, totalGrams := 0,
                  totals := createEmptyAggregate, items := [] } := rfl

/-- C8: with exactly one candidate, `selectBestMatch` returns that candidate
for every possible oracle behavior; the result does not depend on the oracle
outcome because the single-candidate early return happens before the API
call is made. -/
theorem claim8_single_candidate (foodName : String) (c : FoodSearchResult)
    (outcome : OracleOutcome) :
    selectBestMatch foodName [c] outcome = Except.ok (some c) := rfl

/-- C7: `scaleNutritionalValues` multiplies every numeric field by the
multiplier and rounds each result to 2 decimals independently, with no
clamping, leaving `name` and `servingSize` unchanged; in particular
multiplier 2 doubles-then-rounds every field and multiplier 1 merely rounds
every field. -/
theorem claim7_scale (v : NutritionalValues) (m : ℚ) :
    (scaleNutritionalValues v m).energy.kj = round2 (v.energy.kj * m) ∧
    (scaleNutritionalValues v m).energy.kcal = round2 (v.energy.kcal * m) ∧
    (scaleNutritionalValues v m).carbohydrates = round2 (v.carbohydrates * m) ∧
    (scaleNutritionalValues v m).sugar = round2 (v.sugar * m) ∧
    (scaleNutritionalValues v m).protein = round2 (v.protein * m) ∧
    (scaleNutritionalValues v m).fat.total = round2 (v.fat.total * m) ∧
    (scaleNutritionalValues v m).fat.saturated = round2 (v.fat.saturated * m) ∧
    (scaleNutritionalValues v m).fat.trans = round2 (v.fat.trans * m) ∧
    (scaleNutritionalValues v m).fat.monounsaturated = round2 (v.fat.monounsaturated * m) ∧
    (scaleNutritionalValues v m).fat.polyunsaturated = round2 (v.fat.polyunsaturated * m) ∧
    (scaleNutritionalValues v m).cholesterol = round2 (v.cholesterol * m) ∧
    (scaleNutritionalValues v m).fiber = round2 (v.fiber * m) ∧
    (scaleNutritionalValues v m).sodium = round2 (v.sodium * m) ∧
    (scaleNutritionalValues v m).potassium = round2 (v.potassium * m) ∧
    (scaleNutritionalValues v m).name = v.name ∧
    (scaleNutritionalValues v m).servingSize = v.servingSize ∧
    scaleNutritionalValues v 2 =
      { v with
        energy := { kj := round2 (2 * v.energy.kj), kcal := round2 (2 * v.energy.kcal) },
        carbohydrates := round2 (2 * v.carbohydrates),
        sugar := round2 (2 * v.sugar),
        protein := round2 (2 * v.protein),
        fat := { total := round2 (2 * v.fat.total),
                 saturated := round2 (2 * v.fat.saturated),
                 trans := round2 (2 * v.fat.trans),
                 monounsaturated := round2 (2 * v.fat.monounsaturated),
                 polyunsaturated := round2 (2 * v.fat.polyunsaturated) },
        cholesterol := round2 (2 * v.cholesterol),
        fiber := round2 (2 * v.fiber),
        sodium := round2 (2 * v.sodium),
        potassium := round2 (2 * v.potassium) } ∧
    scaleNutritionalValues v 1 =
      { v with
        energy := { kj := round2 v.energy.kj, kcal := round2 v.energy.kcal },
        carbohydrates := round2 v.carbohydrates,
        sugar := round2 v.sugar,
        protein := round2 v.protein,
        fat := { total := round2 v.fat.total,
                 saturated := round2 v.fat.saturated,
                 trans := round2 v.fat.trans,
                 monounsaturated := round2 v.fat.monounsaturated,
                 polyunsaturated := round2 v.fat.polyunsaturated },
        cholesterol := round2 v.cholesterol,
        fiber := round2 v.fiber,
        sodium := round2 v.sodium,
        potassium := round2 v.potassium } := by
  refine ⟨rfl, rfl, rfl, rfl, rfl, rfl, rfl, rfl, rfl, rfl, rfl, rfl, rfl, rfl, rfl, rfl, ?_, ?_⟩
  · simp [scaleNutritionalValues, mul_comm]
  · simp [scaleNutritionalValues]

/-- C3 counterexample: when the awaited oracle API call itself throws, the
exception propagates out of `calculateServingSize`; the function does not
return 100 in that failure mode. -/
theorem claim3_counterexample :
    calculateServingSize "arroz" "1 prato" emptyDetailPage OracleOutcome.crash =
      Except.error "openai.chat.completions.create rejected" ∧
    (Except.error "openai.chat.completions.create rejected" : Except String ℚ) ≠
      Except.ok 100 :=
  ⟨rfl, fun h => Except.noConfusion h⟩

/-- C3 amended: for the content-level oracle failure modes — no content,
unparseable or non-numeric content, or a numeric payload that is not
positive — `calculateServingSize` returns exactly 100 without throwing; only
an exception thrown by the oracle transport itself propagates. -/
theorem claim3_amended (foodName userServing : String) (page : DetailPage)
    (g : ℚ) (hg : g ≤ 0) :
    calculateServingSize foodName userServing page OracleOutcome.noContent = Except.ok 100 ∧
    calculateServingSize foodName userServing page (OracleOutcome.content none) = Except.ok 100 ∧
    calculateServingSize foodName userServing page (OracleOutcome.content (some g)) =
      Except.ok 100 := by
  refine ⟨rfl, rfl, ?_⟩
  show Except.ok (if 0 < g then g else 100) = Except.ok 100
  rw [if_neg (not_lt.mpr hg)]

/-- Witness for the amended C3, at the concrete non-positive payload 0. -/
theorem claim3_amended_witness :
    ((0 : ℚ) ≤ 0) ∧
    calculateServingSize "arroz" "1 prato" emptyDetailPage
      (OracleOutcome.content (some 0)) = Except.ok 100 :=
  ⟨le_refl 0, (claim3_amended "arroz" "1 prato" emptyDetailPage 0 (le_refl 0)).2.2⟩

/-- C4 counterexample: with two candidates, an oracle payload of 1.5 passes
the bounds check (`0.5 < 0` and `0.5 >= 2` are both false) and the function
returns `searchResults[0.5]`, which is `undefined` — neither the first
candidate nor the candidate at any 1-based index. -/
theorem claim4_counterexample :
    selectBestMatch "x" [sampleCandA, sampleCandB]
        (OracleOutcome.content (some (3 / 2))) = Except.ok none ∧
    (Except.ok (some sampleCandA) : Except String (Option FoodSearchResult)) ≠
      Except.ok none := by
  have hhalf : (3 / 2 : ℚ) - 1 = 1 / 2 := by norm_num
  have hg : ¬((3 / 2 : ℚ) - 1 < 0 ∨
      (([sampleCandA, sampleCandB] : List FoodSearchResult).length : ℚ) ≤ (3 / 2 : ℚ) - 1) := by
    rw [hhalf]
    push_neg
    constructor <;> norm_num
  refine ⟨?_, fun h => ?_⟩
  · show (if (3 / 2 : ℚ) - 1 < 0 ∨
          (([sampleCandA, sampleCandB] : List FoodSearchResult).length : ℚ) ≤ (3 / 2 : ℚ) - 1 then
        Except.ok ([sampleCandA, sampleCandB] : List FoodSearchResult).head?
      else Except.ok (jsIndex [sampleCandA, sampleCandB] ((3 / 2 : ℚ) - 1))) = Except.ok none
    rw [if_neg hg, hhalf]
    have hden : ((1 : ℚ) / 2).den = 2 := by simp [Rat.den]
    unfold jsIndex
    rw [if_neg (fun hc => by rw [hden] at hc; exact absurd hc.1 (by norm_num))]
  · rw [Except.ok.injEq] at h
    exact Option.noConfusion h

/-- C4 amended (for integer oracle payloads): with at least two candidates,
no response or an unparseable response falls back to the first candidate; an
integer index outside `1..N` falls back to the first candidate; an integer
index inside `1..N` selects the candidate at that 1-based index.  (A
non-integer numeric payload strictly between 1 and N+1 instead slips past
the bounds check and produces `undefined`, see the counterexample.) -/
theorem claim4_amended (foodName : String) (results : List FoodSearchResult)
    (h2 : 2 ≤ results.length) :
    selectBestMatch foodName results OracleOutcome.noContent = Except.ok results.head? ∧
    selectBestMatch foodName results (OracleOutcome.content none) = Except.ok results.head? ∧
    (∀ i : ℤ, (i < 1 ∨ (results.length : ℤ) < i) →
      selectBestMatch foodName results (OracleOutcome.content (some (i : ℚ))) =
        Except.ok results.head?) ∧
    (∀ i : ℤ, 1 ≤ i → i ≤ (results.length : ℤ) →
      selectBestMatch foodName results (OracleOutcome.content (some (i : ℚ))) =
        Except.ok (results.get? (i - 1).toNat)) := by
  have hne : results.isEmpty = false := by
    cases results with
    | nil => simp at h2
    | cons a l => rfl
  have hlen : (results.length == 1) = false := beq_eq_false_iff_ne.mpr (by omega)
  refine ⟨?_, ?_, ?_, ?_⟩
  · simp [selectBestMatch, hne, hlen]
  · simp [selectBestMatch, hne, hlen]
  · intro i hi
    have hguard : (i : ℚ) - 1 < 0 ∨ (results.length : ℚ) ≤ (i : ℚ) - 1 := by
      rcases hi with hi | hi
      · left
        have h' : (i : ℚ) < 1 := by exact_mod_cast hi
        linarith
      · right
        have h' : (results.length : ℤ) ≤ i - 1 := by omega
        have h'' : ((results.length : ℤ) : ℚ) ≤ ((i - 1 : ℤ) : ℚ) := by exact_mod_cast h'
        push_cast at h''
        linarith
    simp only [selectBestMatch, hne, hlen, Bool.false_eq_true, if_false]
    rw [if_pos hguard]
  · intro i hi1 hi2
    have hg1 : ¬((i : ℚ) - 1 < 0) := by
      have h' : (1 : ℚ) ≤ (i : ℚ) := by exact_mod_cast hi1
      linarith
    have hg2 : ¬((results.length : ℚ) ≤ (i : ℚ) - 1) := by
      have h' : (i : ℚ) ≤ (results.length : ℚ) := by exact_mod_cast hi2
      linarith
    simp only [selectBestMatch, hne, hlen, Bool.false_eq_true, if_false]
    rw [if_neg (fun h => h.elim hg1 hg2)]
    have hcast : (i : ℚ) - 1 = ((i - 1 : ℤ) : ℚ) := by push_cast; ring
    rw [hcast]
    unfold jsIndex
    rw [if_pos ⟨Rat.den_intCast _, by rw [Rat.num_intCast]; omega⟩]
    rw [Rat.num_intCast]

/-- Witness for the amended C4: two candidates, integer payload 3 (out of
range), falling back to the first candidate. -/
theorem claim4_amended_witness :
    (2 ≤ ([sampleCandA, sampleCandB] : List FoodSearchResult).length) ∧
    selectBestMatch "x" [sampleCandA, sampleCandB]
        (OracleOutcome.content (some ((3 : ℤ) : ℚ))) =
      Except.ok ([sampleCandA, sampleCandB] : List FoodSearchResult).head? :=
  ⟨by decide,
   (claim4_amended "x" [sampleCandA, sampleCandB] (by decide)).2.2.1 3
     (Or.inr (by decide))⟩

/-- A fold whose step fixes the accumulator on elements failing `p` depends
only on the elements satisfying `p`. -/
lemma foldl_skip_of_not {α : Type} (p : α → Bool) (f : ℚ → α → ℚ)
    (hf : ∀ v a, p a = false → f v a = v) (l : List α) (v : ℚ) :
    l.foldl f v = (l.filter p).foldl f v := by
  induction l generalizing v with
  | nil => rfl
  | cons a t ih =>
    cases hp : p a with
    | true => simp [List.filter_cons, hp, ih]
    | false => simp [List.filter_cons, hp, hf v a hp, ih]

/-- C5: the saturated-fat lookup reads only sub-rows whose normalized label
is exactly `gordura saturada`; the mono- and poly-unsaturated lookups read
only sub-rows containing their own full labels; and no row can satisfy both
the saturated matcher and a mono- or poly-unsaturated matcher, so the
saturated value is never taken from a mono- or poly-unsaturated row and
vice versa. -/
theorem claim5_saturated_isolation (els : List NutrientEl) (e : NutrientEl) :
    findSubNutrient els "saturada" =
      findSubNutrient (els.filter (fun x => subText x == "gordura saturada")) "saturada" ∧
    findSubNutrient els "monoinsaturada" =
      findSubNutrient (els.filter (fun x => jsIncludes (subText x) "monoinsaturada")) "monoinsaturada" ∧
    findSubNutrient els "poliinsaturada" =
      findSubNutrient (els.filter (fun x => jsIncludes (subText x) "poliinsaturada")) "poliinsaturada" ∧
    ((subText e == "gordura saturada") && jsIncludes (subText e) "monoinsaturada") = false ∧
    ((subText e == "gordura saturada") && jsIncludes (subText e) "poliinsaturada") = false := by
  have hs1 : (jsToLower "saturada" == "saturada") = true := by decide
  have hm1 : (jsToLower "monoinsaturada" == "saturada") = false := by decide
  have hm2 : (jsToLower "monoinsaturada" == "monoinsaturada") = true := by decide
  have hp1 : (jsToLower "poliinsaturada" == "saturada") = false := by decide
  have hp2 : (jsToLower "poliinsaturada" == "monoinsaturada") = false := by decide
  have hp3 : (jsToLower "poliinsaturada" == "poliinsaturada") = true := by decide
  have hsat : ∀ t, subMatches "saturada" t = (t == "gordura saturada") := by
    intro t
    unfold subMatches
    dsimp only
    rw [hs1]
    simp
  have hmono : ∀ t, subMatches "monoinsaturada" t = jsIncludes t "monoinsaturada" := by
    intro t
    unfold subMatches
    dsimp only
    rw [hm1, hm2]
    simp
  have hpoli : ∀ t, subMatches "poliinsaturada" t = jsIncludes t "poliinsaturada" := by
    intro t
    unfold subMatches
    dsimp only
    rw [hp1, hp2, hp3]
    simp
  refine ⟨?_, ?_, ?_, ?_, ?_⟩
  · unfold findSubNutrient
    rw [foldl_skip_of_not (fun x => subText x == "gordura saturada") (subRowStep "saturada")
      (fun v a ha => by
        have ha' : (subText a == "gordura saturada") = false := ha
        unfold subRowStep
        rw [hsat, ha']
        simp)]
    rw [List.filter_comm]
  · unfold findSubNutrient
    rw [foldl_skip_of_not (fun x => jsIncludes (subText x) "monoinsaturada")
      (subRowStep "monoinsaturada")
      (fun v a ha => by
        have ha' : jsIncludes (subText a) "monoinsaturada" = false := ha
        unfold subRowStep
        rw [hmono, ha']
        simp)]
    rw [List.filter_comm]
  · unfold findSubNutrient
    rw [foldl_skip_of_not (fun x => jsIncludes (subText x) "poliinsaturada")
      (subRowStep "poliinsaturada")
      (fun v a ha => by
        have ha' : jsIncludes (subText a) "poliinsaturada" = false := ha
        unfold subRowStep
        rw [hpoli, ha']
        simp)]
    rw [List.filter_comm]
  · cases hs : subText e == "gordura saturada" with
    | false => rfl
    | true =>
      rw [beq_iff_eq.mp hs]
      decide
  · cases hs : subText e == "gordura saturada" with
    | false => rfl
    | true =>
      rw [beq_iff_eq.mp hs]
      decide

/-- Characters captured by the macro regex are digits or commas. -/
lemma tryAt_chars (key unit s cap : List Char) (h : tryAt key unit s = some cap) :
    ∀ c ∈ cap, isDigitComma c = true := by
  unfold tryAt at h
  split at h
  · exact absurd h (by simp)
  · dsimp only at h
    split at h
    · exact absurd h (by simp)
    · split at h
      · exact absurd h (by simp)
      · rw [Option.some.injEq] at h
        subst h
        exact fun c hc => List.mem_takeWhile_imp hc

/-- Characters of a successful scan capture are digits or commas. -/
lemma scanPattern_chars (key unit : List Char) :
    ∀ (s cap : List Char), scanPattern key unit s = some cap →
      ∀ c ∈ cap, isDigitComma c = true := by
  intro s
  induction s with
  | nil => intro cap h; exact absurd h (by simp [scanPattern])
  | cons a t ih =>
    intro cap h
    unfold scanPattern at h
    cases htry : tryAt key unit (a :: t) with
    | some cap2 =>
      rw [htry] at h
      rw [Option.some.injEq] at h
      subst h
      exact tryAt_chars key unit (a :: t) cap2 htry
    | none =>
      rw [htry] at h
      exact ih cap h

/-- A scanned mantissa value is non-negative. -/
lemma parseMantissa_nonneg (cs : List Char) (r : ℚ) (hr : parseMantissa cs = some r) :
    0 ≤ r := by
  unfold parseMantissa at hr
  cases hd : parseDigits cs with
  | none => rw [hd] at hr; exact absurd hr (by simp)
  | some p =>
    rw [hd] at hr
    simp only [Option.map_some'] at hr
    rw [Option.some.injEq] at hr
    subst hr
    unfold mantissaVal
    positivity

/-- `parseFloat` of a string with no minus sign cannot be negative. -/
lemma jsParseFloat_nonneg (s : String) (hs : (s.data.any (fun c => c == '-')) = false)
    (q : ℚ) (h : jsParseFloat s = some q) : 0 ≤ q := by
  unfold jsParseFloat at h
  cases hdata : s.data with
  | nil => rw [hdata] at h; exact parseMantissa_nonneg _ _ h
  | cons c t =>
    rw [hdata] at h
    dsimp only at h
    rw [hdata, List.any_cons, Bool.or_eq_false_iff] at hs
    rw [hs.1] at h
    simp only [Bool.false_eq_true, if_false] at h
    cases hcp : (c == '+') with
    | true => rw [hcp] at h; simp only [if_pos] at h; exact parseMantissa_nonneg _ _ h
    | false =>
      rw [hcp] at h
      simp only [Bool.false_eq_true, if_false] at h
      exact parseMantissa_nonneg _ _ h

/-- Digit-or-comma lists contain no minus sign. -/
lemma digitComma_no_minus (l : List Char) (hl : ∀ c ∈ l, isDigitComma c = true) :
    (l.any (fun c => c == '-')) = false := by
  rw [List.any_eq_false]
  intro x hx hxx
  have h1 := hl x hx
  rw [beq_iff_eq.mp hxx] at h1
  exact absurd h1 (by decide)

/-- Replacing the first comma by a dot does not introduce a minus sign. -/
lemma replaceFirstComma_any_minus (l : List Char)
    (hl : (l.any (fun c => c == '-')) = false) :
    ((replaceFirstComma l).any (fun c => c == '-')) = false := by
  induction l with
  | nil => rfl
  | cons a t ih =>
    rw [List.any_cons, Bool.or_eq_false_iff] at hl
    unfold replaceFirstComma
    by_cases hc : (a == ',') = true
    · rw [if_pos hc, List.any_cons]
      rw [show (('.' == '-') : Bool) = false from by decide, hl.2]
      rfl
    · rw [if_neg hc, List.any_cons, hl.1, ih hl.2]
      rfl

/-- A macro field that parses to a number is non-negative (the capture class
admits no minus sign). -/
lemma parseMacroField_nonneg (key unit info : String) (q : ℚ)
    (h : parseMacroField key unit info = some q) : 0 ≤ q := by
  unfold parseMacroField at h
  cases hscan : scanPattern key.data unit.data info.data with
  | none =>
    rw [hscan] at h
    rw [Option.some.injEq] at h
    subst h
    exact le_refl 0
  | some cap =>
    rw [hscan] at h
    apply jsParseFloat_nonneg _ ?_ _ h
    show ((replaceFirstComma cap).any (fun c => c == '-')) = false
    exact replaceFirstComma_any_minus cap
      (digitComma_no_minus cap (scanPattern_chars key.data unit.data _ cap hscan))

/-- A row with no usable link produces no candidate. -/
lemma rowCandidate_eq_none (r : SearchRow) (h : rowHasLink r = false) :
    rowCandidate r = none := by
  cases hl : r.link with
  | none => simp [rowCandidate, hl]
  | some l =>
    cases hh : l.href with
    | none => simp [rowCandidate, hl, hh]
    | some href =>
      simp only [rowHasLink, hl, hh] at h
      have hemp : jsEmpty href = true := by
        cases hje : jsEmpty href
        · rw [hje] at h; exact absurd h (by decide)
        · rfl
      simp [rowCandidate, hl, hh, hemp]

/-- A row with a usable link produces a candidate. -/
lemma rowCandidate_isSome (r : SearchRow) (h : rowHasLink r = true) :
    (rowCandidate r).isSome = true := by
  cases hl : r.link with
  | none => simp only [rowHasLink, hl] at h; exact absurd h (by decide)
  | some l =>
    cases hh : l.href with
    | none => simp only [rowHasLink, hl, hh] at h; exact absurd h (by decide)
    | some href =>
      simp only [rowHasLink, hl, hh] at h
      have hemp : jsEmpty href = false := by
        cases hje : jsEmpty href
        · rfl
        · rw [hje] at h; exact absurd h (by decide)
      simp [rowCandidate, hl, hh, hemp]

/-- The macro fields of a produced candidate come from the row's info
text. -/
lemma rowCandidate_macros (r : SearchRow) (c : FoodSearchResult)
    (h : rowCandidate r = some c) :
    c.caloriesPer100g = macroCalories r.infoText ∧
    c.fatPer100g = macroFat r.infoText ∧
    c.carbsPer100g = macroCarbs r.infoText ∧
    c.proteinPer100g = macroProtein r.infoText := by
  unfold rowCandidate at h
  split at h
  · exact absurd h (by simp)
  · split at h
    · exact absurd h (by simp)
    · split at h
      · exact absurd h (by simp)
      · rw [Option.some.injEq] at h
        subst h
        exact ⟨rfl, rfl, rfl, rfl⟩

/-- `filterMap` over a list where every element maps to `some` keeps the
length. -/
lemma filterMap_length_of_isSome {α β : Type} (f : α → Option β) (l : List α)
    (h : ∀ a ∈ l, (f a).isSome = true) : (l.filterMap f).length = l.length := by
  induction l with
  | nil => rfl
  | cons a t ih =>
    cases hfa : f a with
    | none => exact absurd (hfa ▸ h a (List.mem_cons_self a t)) (by simp)
    | some b =>
      simp only [List.filterMap_cons, hfa, List.length_cons]
      rw [ih (fun x hx => h x (List.mem_cons_of_mem a hx))]

/-- `filterMap` ignores elements that map to `none`. -/
lemma filterMap_skip_none {α β : Type} (p : α → Bool) (f : α → Option β)
    (hf : ∀ a, p a = false → f a = none) (l : List α) :
    l.filterMap f = (l.filter p).filterMap f := by
  induction l with
  | nil => rfl
  | cons a t ih =>
    cases hp : p a with
    | true => simp [List.filter_cons, hp, List.filterMap_cons, ih]
    | false => simp [List.filter_cons, hp, List.filterMap_cons, hf a hp, ih]

/-- C6: on a document of `N` well-formed rows with `N ≤ 10`, the search
extractor returns exactly `N` candidates, one per row in document order
(`filterMap` preserves order), each with non-negative coarse macros; on any
document at most 10 candidates are returned and rows lacking a usable
primary link are silently excluded (the extractor is total, so it never
crashes). -/
theorem claim6_search_extractor (rows : List SearchRow)
    (hw : ∀ r ∈ rows, wellFormedRow r = true) (hn : rows.length ≤ 10) :
    parseSearchResults rows = rows.filterMap rowCandidate ∧
    (parseSearchResults rows).length = rows.length ∧
    (∀ c ∈ parseSearchResults rows,
      (∃ q, c.caloriesPer100g = some q ∧ 0 ≤ q) ∧
      (∃ q, c.fatPer100g = some q ∧ 0 ≤ q) ∧
      (∃ q, c.carbsPer100g = some q ∧ 0 ≤ q) ∧
      (∃ q, c.proteinPer100g = some q ∧ 0 ≤ q)) ∧
    (∀ rows' : List SearchRow, (parseSearchResults rows').length ≤ 10 ∧
      parseSearchResults rows' = parseSearchResults (rows'.filter rowHasLink)) := by
  have hparts : ∀ r ∈ rows, rowHasLink r = true ∧
      (macroCalories r.infoText).isSome = true ∧ (macroFat r.infoText).isSome = true ∧
      (macroCarbs r.infoText).isSome = true ∧ (macroProtein r.infoText).isSome = true := by
    intro r hr
    have h := hw r hr
    unfold wellFormedRow at h
    simp only [Bool.and_eq_true] at h
    exact ⟨h.1.1.1.1, h.1.1.1.2, h.1.1.2, h.1.2, h.2⟩
  have hlenfm : (rows.filterMap rowCandidate).length = rows.length :=
    filterMap_length_of_isSome _ _ (fun a ha => rowCandidate_isSome a (hparts a ha).1)
  have htake : parseSearchResults rows = rows.filterMap rowCandidate := by
    unfold parseSearchResults
    apply List.take_of_length_le
    rw [hlenfm]
    exact hn
  refine ⟨htake, by rw [htake, hlenfm], ?_, ?_⟩
  · intro c hc
    rw [htake, List.mem_filterMap] at hc
    obtain ⟨r, hr, hrc⟩ := hc
    obtain ⟨h1, h2, h3, h4, h5⟩ := hparts r hr
    obtain ⟨m1, m2, m3, m4⟩ := rowCandidate_macros r c hrc
    refine ⟨?_, ?_, ?_, ?_⟩
    · rw [m1]
      cases hcal : macroCalories r.infoText with
      | none => rw [hcal] at h2; exact absurd h2 (by simp)
      | some q => exact ⟨q, rfl, parseMacroField_nonneg _ _ _ _ hcal⟩
    · rw [m2]
      cases hcal : macroFat r.infoText with
      | none => rw [hcal] at h3; exact absurd h3 (by simp)
      | some q => exact ⟨q, rfl, parseMacroField_nonneg _ _ _ _ hcal⟩
    · rw [m3]
      cases hcal : macroCarbs r.infoText with
      | none => rw [hcal] at h4; exact absurd h4 (by simp)
      | some q => exact ⟨q, rfl, parseMacroField_nonneg _ _ _ _ hcal⟩
    · rw [m4]
      cases hcal : macroProtein r.infoText with
      | none => rw [hcal] at h5; exact absurd h5 (by simp)
      | some q => exact ⟨q, rfl, parseMacroField_nonneg _ _ _ _ hcal⟩
  · intro rows'
    constructor
    · exact List.length_take_le 10 _
    · unfold parseSearchResults
      rw [filterMap_skip_none rowHasLink rowCandidate
        (fun a ha => rowCandidate_eq_none a ha) rows']

/-- Witness for C6: the fixture-shaped row is well-formed and yields exactly
one candidate. -/
theorem claim6_witness :
    (∀ r ∈ [fixtureRow], wellFormedRow r = true) ∧
    ([fixtureRow] : List SearchRow).length ≤ 10 ∧
    (parseSearchResults [fixtureRow]).length = 1 :=
  ⟨by decide, by decide,
   (claim6_search_extractor [fixtureRow] (by decide) (by decide)).2.1⟩

/-- Filtering preserves the absence of minus signs. -/
lemma any_minus_filter (p : Char → Bool) (l : List Char)
    (h : (l.any (fun c => c == '-')) = false) :
    ((l.filter p).any (fun c => c == '-')) = false := by
  rw [List.any_eq_false] at h ⊢
  exact fun x hx => h x (List.mem_filter.mp hx).1

/-- The cleaned value text of the detail parser has no minus sign when the
raw text has none. -/
lemma cleanNumericText_no_minus (s : String) (hs : textNoMinus s = true) :
    ((cleanNumericText s).data.any (fun c => c == '-')) = false := by
  have hany : (s.data.any (fun c => c == '-')) = false := by
    cases hb : (s.data.any (fun c => c == '-'))
    · rfl
    · unfold textNoMinus at hs
      rw [hb] at hs
      exact absurd hs (by decide)
  show ((replaceFirstComma
      (s.data.filter (fun c => c.isDigit || c == ',' || c == '.' || c == '-'))).any
      (fun c => c == '-')) = false
  exact replaceFirstComma_any_minus _ (any_minus_filter _ _ hany)

/-- The detail parser's `parseNumber` is non-negative on minus-free text. -/
lemma parseNumberDetail_nonneg (s : String) (hs : textNoMinus s = true) :
    0 ≤ parseNumberDetail s := by
  unfold parseNumberDetail
  cases hpf : jsParseFloat (cleanNumericText s) with
  | none => exact le_refl 0
  | some q =>
    show (0 : ℚ) ≤ q
    exact jsParseFloat_nonneg _ (cleanNumericText_no_minus s hs) q hpf

/-- The energy scan keeps both slots non-negative on minus-free texts. -/
lemma energyFold_nonneg : ∀ (l : List String) (st : ℚ × ℚ),
    (∀ t ∈ l, textNoMinus t = true) → 0 ≤ st.1 → 0 ≤ st.2 →
    0 ≤ (l.foldl energyStep st).1 ∧ 0 ≤ (l.foldl energyStep st).2 := by
  intro l
  induction l with
  | nil => intro st _ h1 h2; exact ⟨h1, h2⟩
  | cons a t ih =>
    intro st hl h1 h2
    rw [List.foldl_cons]
    have ha := hl a (List.mem_cons_self a t)
    refine ih (energyStep st a) (fun x hx => hl x (List.mem_cons_of_mem a hx)) ?_ ?_
    · unfold energyStep
      by_cases hkj : jsIncludes a "kj" = true
      · rw [if_pos hkj]
        exact parseNumberDetail_nonneg a ha
      · rw [if_neg hkj]
        by_cases hkc : jsIncludes a "kcal" = true
        · rw [if_pos hkc]
          exact h1
        · rw [if_neg hkc]
          exact h1
    · unfold energyStep
      by_cases hkj : jsIncludes a "kj" = true
      · rw [if_pos hkj]
        exact h2
      · rw [if_neg hkj]
        by_cases hkc : jsIncludes a "kcal" = true
        · rw [if_pos hkc]
          exact parseNumberDetail_nonneg a ha
        · rw [if_neg hkc]
          exact h2

/-- A fold by a step that keeps non-negativity on good elements stays
non-negative. -/
lemma foldl_nonneg_of_step {α : Type} (good : α → Prop) (f : ℚ → α → ℚ)
    (hf : ∀ v a, 0 ≤ v → good a → 0 ≤ f v a) :
    ∀ (l : List α) (v : ℚ), (∀ a ∈ l, good a) → 0 ≤ v → 0 ≤ l.foldl f v := by
  intro l
  induction l with
  | nil => intro v _ hv; exact hv
  | cons a t ih =>
    intro v hl hv
    rw [List.foldl_cons]
    exact ih (f v a) (fun x hx => hl x (List.mem_cons_of_mem a hx))
      (hf v a hv (hl a (List.mem_cons_self a t)))

/-- The main-row step keeps non-negativity when the value text is
minus-free. -/
lemma mainRowStep_nonneg (label : String) (v : ℚ) (e : NutrientEl)
    (hv : 0 ≤ v) (he : nextNoMinus e = true) : 0 ≤ mainRowStep label v e := by
  unfold mainRowStep
  split
  · cases hn : e.nextTRight with
    | some t =>
      unfold nextNoMinus at he
      rw [hn] at he
      exact parseNumberDetail_nonneg t he
    | none => exact hv
  · exact hv

/-- The sub-row step keeps non-negativity when the value text is
minus-free. -/
lemma subRowStep_nonneg (label : String) (v : ℚ) (e : NutrientEl)
    (hv : 0 ≤ v) (he : nextNoMinus e = true) : 0 ≤ subRowStep label v e := by
  unfold subRowStep
  split
  · cases hn : e.nextTRight with
    | some t =>
      unfold nextNoMinus at he
      rw [hn] at he
      exact parseNumberDetail_nonneg t he
    | none => exact hv
  · exact hv

/-- `findNutrient` is non-negative on a minus-free page. -/
lemma findNutrient_nonneg (els : List NutrientEl) (label : String)
    (h : ∀ e ∈ els, nextNoMinus e = true) : 0 ≤ findNutrient els label :=
  foldl_nonneg_of_step (fun e => nextNoMinus e = true) (mainRowStep label)
    (fun v a hv ha => mainRowStep_nonneg label v a hv ha) els 0 h (le_refl 0)

/-- `findSubNutrient` is non-negative on a minus-free page. -/
lemma findSubNutrient_nonneg (els : List NutrientEl) (label : String)
    (h : ∀ e ∈ els, nextNoMinus e = true) : 0 ≤ findSubNutrient els label := by
  unfold findSubNutrient
  exact foldl_nonneg_of_step (fun e => nextNoMinus e = true) (subRowStep label)
    (fun v a hv ha => subRowStep_nonneg label v a hv ha) _ 0
    (fun a ha => h a (List.mem_filter.mp ha).1) (le_refl 0)

/-- C1 amended: `parseNutritionalValues` is total (never throws) and always
returns a structurally complete record; every numeric field is non-negative
whenever no value text on the page carries a minus sign.  The extractor does
not clamp: a value text with a leading minus sign parses negative (see the
counterexample), which is the one way a field can fall below zero. -/
theorem claim1_amended (page : DetailPage) (foodName : String)
    (h : pageNoMinus page = true) :
    0 ≤ (parseNutritionalValues page foodName).energy.kj ∧
    0 ≤ (parseNutritionalValues page foodName).energy.kcal ∧
    0 ≤ (parseNutritionalValues page foodName).carbohydrates ∧
    0 ≤ (parseNutritionalValues page foodName).sugar ∧
    0 ≤ (parseNutritionalValues page foodName).protein ∧
    0 ≤ (parseNutritionalValues page foodName).fat.total ∧
    0 ≤ (parseNutritionalValues page foodName).fat.saturated ∧
    0 ≤ (parseNutritionalValues page foodName).fat.trans ∧
    0 ≤ (parseNutritionalValues page foodName).fat.monounsaturated ∧
    0 ≤ (parseNutritionalValues page foodName).fat.polyunsaturated ∧
    0 ≤ (parseNutritionalValues page foodName).cholesterol ∧
    0 ≤ (parseNutritionalValues page foodName).fiber ∧
    0 ≤ (parseNutritionalValues page foodName).sodium ∧
    0 ≤ (parseNutritionalValues page foodName).potassium := by
  have hsplit : (page.tRightTexts.all textNoMinus) = true ∧
      (page.nutrients.all nextNoMinus) = true := by
    unfold pageNoMinus at h
    rwa [Bool.and_eq_true] at h
  have htr : ∀ t ∈ page.tRightTexts, textNoMinus t = true :=
    List.all_eq_true.mp hsplit.1
  have hnu : ∀ e ∈ page.nutrients, nextNoMinus e = true :=
    List.all_eq_true.mp hsplit.2
  have henergy := energyFold_nonneg page.tRightTexts (0, 0) htr (le_refl 0) (le_refl 0)
  exact ⟨henergy.1, henergy.2,
    findNutrient_nonneg _ _ hnu, findSubNutrient_nonneg _ _ hnu,
    findNutrient_nonneg _ _ hnu, findNutrient_nonneg _ _ hnu,
    findSubNutrient_nonneg _ _ hnu, findSubNutrient_nonneg _ _ hnu,
    findSubNutrient_nonneg _ _ hnu, findSubNutrient_nonneg _ _ hnu,
    findNutrient_nonneg _ _ hnu, findNutrient_nonneg _ _ hnu,
    findNutrient_nonneg _ _ hnu, findNutrient_nonneg _ _ hnu⟩

/-- Witness for the amended C1 at a concrete minus-free page. -/
theorem claim1_amended_witness :
    pageNoMinus minusFreePage = true ∧
    0 ≤ (parseNutritionalValues minusFreePage "carne").energy.kj :=
  ⟨by decide, (claim1_amended minusFreePage "carne" (by decide)).1⟩

/-- C1 counterexample: a detail page whose kcal text is `-5kcal` parses to
energy.kcal = -5, a negative field value; the claimed invariant `every
numeric field ≥ 0 for every input` fails. -/
theorem claim1_counterexample :
    (parseNutritionalValues negativeKcalPage "frango").energy.kcal = -5 ∧
    ¬(0 ≤ (parseNutritionalValues negativeKcalPage "frango").energy.kcal) := by
  have h2 : parseNumberDetail "-5kcal" = -5 := by
    show (jsParseFloat (cleanNumericText "-5kcal")).getD 0 = -5
    rw [show cleanNumericText "-5kcal" = "-5" from by decide]
    show ((parseMantissa ['5']).map (fun q => -q)).getD 0 = -5
    unfold parseMantissa
    rw [show parseDigits ['5'] = some (5, 0, 0) from by decide]
    simp only [Option.map_some', Option.getD_some]
    unfold mantissaVal
    norm_num
  have h1 : (parseNutritionalValues negativeKcalPage "frango").energy.kcal
      = parseNumberDetail "-5kcal" := by
    show (List.foldl energyStep (0, 0) ["-5kcal"]).2 = parseNumberDetail "-5kcal"
    rw [List.foldl_cons]
    show (energyStep (0, 0) "-5kcal").2 = parseNumberDetail "-5kcal"
    unfold energyStep
    rw [show jsIncludes "-5kcal" "kj" = false from by decide]
    rw [show jsIncludes "-5kcal" "kcal" = true from by decide]
    simp
  rw [h1, h2]
  norm_num

/-- With a falsy serving the serving branch is dead code, so two falsy
servings give identical results. -/
lemma getFood_not_truthy (name : String) (s1 s2 : Option String) (env : ItemEnv)
    (h1 : jsTruthy s1 = false) (h2 : jsTruthy s2 = false) :
    getFoodNutritionalValues name s1 env = getFoodNutritionalValues name s2 env := by
  unfold getFoodNutritionalValues
  rw [h1, h2]
  simp only [Bool.false_eq_true, if_false]

/-- With a falsy serving the serving oracle is never consulted: the result
does not depend on the serving-oracle outcome. -/
lemma getFood_env_serving_irrel (name : String) (s : Option String) (env : ItemEnv)
    (o : OracleOutcome) (h : jsTruthy s = false) :
    getFoodNutritionalValues name s { env with servingOutcome := o } =
      getFoodNutritionalValues name s env := by
  unfold getFoodNutritionalValues
  rw [h]
  simp only [Bool.false_eq_true, if_false]

/-- C10: an empty serving string is falsy, so `getFoodNutritionalValues`
with `serving = ""` behaves exactly like the no-serving call: the serving
oracle is not consulted (the result is independent of the serving-oracle
outcome), the parsed per-100g values are returned without scaling or
rounding, the `serving` field is omitted, and the aggregate loop therefore
uses the default 100 grams for such an item. -/
theorem claim10_empty_serving (name : String) (env : ItemEnv) (o : OracleOutcome)
    (r : FoodNutritionalResponse) :
    getFoodNutritionalValues name (some "") env = getFoodNutritionalValues name none env ∧
    getFoodNutritionalValues name (some "") { env with servingOutcome := o } =
      getFoodNutritionalValues name (some "") env ∧
    (getFoodNutritionalValues name (some "") env = Except.ok r →
      r.serving = none ∧ gramsOf r = 100 ∧
      r.nutritionalValues = parseNutritionalValues env.detailPage r.selectedFood) := by
  have hfalse : jsTruthy (some "") = false := rfl
  have hfn : jsTruthy (none : Option String) = false := rfl
  refine ⟨getFood_not_truthy name (some "") none env hfalse hfn,
          getFood_env_serving_irrel name (some "") env o hfalse, ?_⟩
  intro h
  unfold getFoodNutritionalValues at h
  rw [hfalse] at h
  simp only [Bool.false_eq_true, if_false] at h
  split at h
  · exact absurd h (by simp)
  · split at h
    · exact absurd h (by simp)
    · exact absurd h (by simp)
    · rw [Except.ok.injEq] at h
      subst h
      exact ⟨rfl, rfl, rfl⟩

/-- Concrete evaluation of the plain environment with an empty serving. -/
lemma plainFood_eval :
    getFoodNutritionalValues "a" (some "") plainEnv = Except.ok plainResponse := rfl

/-- Witness for C10 at the plain environment, whose serving oracle would
reject if consulted. -/
theorem claim10_witness :
    getFoodNutritionalValues "a" (some "") plainEnv = Except.ok plainResponse ∧
    plainResponse.serving = none ∧ gramsOf plainResponse = 100 ∧
    plainResponse.nutritionalValues =
      parseNutritionalValues plainEnv.detailPage plainResponse.selectedFood :=
  ⟨plainFood_eval,
   (claim10_empty_serving "a" plainEnv OracleOutcome.crash plainResponse).2.2 plainFood_eval⟩

/-- Inversion of one aggregate-loop step. -/
lemma aggStep_ok (st : AggState) (it : FoodItem × ItemEnv) (st1 : AggState)
    (h : aggStep st it = Except.ok st1) :
    ∃ result,
      getFoodNutritionalValues it.1.foodName (some it.1.serving) it.2 = Except.ok result ∧
      st1 = { aggregate := addToAggregate st.aggregate result.nutritionalValues,
              totalGrams := st.totalGrams + gramsOf result,
              details := st.details ++ [mkDetail it.1 result] } := by
  unfold aggStep at h
  split at h
  · exact absurd h (by simp)
  · next result heq =>
      rw [Except.ok.injEq] at h
      exact ⟨result, heq, h.symm⟩

/-- Loop invariant of the aggregate fold: the final state extends the
initial one by the produced item details, summing their gram amounts and
adding their stored nutrient vectors without any intermediate rounding. -/
lemma aggLoop_ok : ∀ (items : List (FoodItem × ItemEnv)) (st st' : AggState),
    aggLoop st items = Except.ok st' →
    ∃ ds, st'.details = st.details ++ ds ∧
      st'.totalGrams = st.totalGrams + (ds.map AggregatedFoodItemDetail.gramsAmount).sum ∧
      st'.aggregate = ds.foldl (fun a d => addToAggregate a d.nutritionalValues) st.aggregate := by
  intro items
  induction items with
  | nil =>
    intro st st' h
    unfold aggLoop at h
    rw [Except.ok.injEq] at h
    subst h
    exact ⟨[], by simp, by simp, rfl⟩
  | cons it rest ih =>
    intro st st' h
    unfold aggLoop at h
    cases hstep : aggStep st it with
    | error e => rw [hstep] at h; exact absurd h (by simp)
    | ok st1 =>
      rw [hstep] at h
      obtain ⟨result, hres, hst1⟩ := aggStep_ok st it st1 hstep
      obtain ⟨ds, hd, hg, ha⟩ := ih st1 st' h
      refine ⟨mkDetail it.1 result :: ds, ?_, ?_, ?_⟩
      · rw [hd, hst1]
        simp
      · rw [hg, hst1]
        simp only [List.map_cons, List.sum_cons, mkDetail]
        ring
      · rw [ha, hst1]
        simp [mkDetail]

/-- C2 amended: for every non-empty item list, when the aggregate call
succeeds, `itemCount` is the number of items, `totalGrams` is the unrounded
sum of the items' gram amounts rounded once at the end, and every field of
`totals` is the single-final-rounding of the exact sum of the items' stored
nutrient vectors — no rounding is applied between additions.  The stored
per-item vectors being summed are, for items with a serving, already rounded
per item by the scaler (see the counterexample), which is what the original
claim's "exact (unrounded) scaled value, never rounding per item" denies. -/
theorem claim2_aggregate_rounding (items : List (FoodItem × ItemEnv))
    (hne : items ≠ []) (r : AggregateNutritionalResponse)
    (hr : getAggregateNutritionalValues items = Except.ok r) :
    r.itemCount = items.length ∧
    r.totalGrams = round2 ((r.items.map AggregatedFoodItemDetail.gramsAmount).sum) ∧
    r.totals = roundAggregate (r.items.foldl
      (fun a d => addToAggregate a d.nutritionalValues) createEmptyAggregate) := by
  unfold getAggregateNutritionalValues at hr
  have hie : items.isEmpty = false := by
    cases items
    · exact absurd rfl hne
    · rfl
  rw [hie] at hr
  simp only [Bool.false_eq_true, if_false] at hr
  cases hloop : aggLoop { aggregate := createEmptyAggregate, totalGrams := 0, details := [] }
      items with
  | error e => rw [hloop] at hr; exact absurd hr (by simp)
  | ok st =>
    rw [hloop] at hr
    rw [Except.ok.injEq] at hr
    subst hr
    obtain ⟨ds, hd, hg, ha⟩ := aggLoop_ok items _ st hloop
    simp only [List.nil_append] at hd
    refine ⟨rfl, ?_, ?_⟩
    · show round2 st.totalGrams =
        round2 ((st.details.map AggregatedFoodItemDetail.gramsAmount).sum)
      rw [hd, hg]
      dsimp only
      rw [zero_add]
    · show roundAggregate st.aggregate = roundAggregate (st.details.foldl
        (fun a d => addToAggregate a d.nutritionalValues) createEmptyAggregate)
      rw [hd, ha]

/-- Concrete evaluation of the single-item aggregate over the plain item. -/
lemma plainAgg_eval :
    getAggregateNutritionalValues [plainItem] = Except.ok plainAggResponse := by
  have hfood : getFoodNutritionalValues plainItem.1.foodName (some plainItem.1.serving)
      plainItem.2 = Except.ok plainResponse := plainFood_eval
  have hstep : aggStep { aggregate := createEmptyAggregate, totalGrams := 0, details := [] }
      plainItem = Except.ok
        { aggregate := addToAggregate createEmptyAggregate plainValues,
          totalGrams := 0 + 100,
          details := [mkDetail plainItem.1 plainResponse] } := by
    unfold aggStep
    rw [hfood]
    rfl
  have hloop : aggLoop { aggregate := createEmptyAggregate, totalGrams := 0, details := [] }
      [plainItem] = Except.ok
        { aggregate := addToAggregate createEmptyAggregate plainValues,
          totalGrams := 0 + 100,
          details := [mkDetail plainItem.1 plainResponse] } := by
    show (match aggStep { aggregate := createEmptyAggregate, totalGrams := 0, details := [] }
        plainItem with
      | Except.error e => Except.error e
      | Except.ok st1 => aggLoop st1 []) = _
    rw [hstep]
    rfl
  unfold getAggregateNutritionalValues
  simp only [List.isEmpty_cons, Bool.false_eq_true, if_false]
  rw [hloop]
  rw [Except.ok.injEq]
  show ({ itemCount := 1, totalGrams := round2 (0 + 100),
          totals := roundAggregate (addToAggregate createEmptyAggregate plainValues),
          items := [mkDetail plainItem.1 plainResponse] } :
        AggregateNutritionalResponse) = plainAggResponse
  norm_num [plainAggResponse, roundAggregate, addToAggregate, createEmptyAggregate,
    plainValues, round2, jsRound, mkDetail, plainItem, plainResponse, gramsOf]

/-- Witness for the amended C2 at the single-item plain aggregate. -/
theorem claim2_amended_witness :
    ([plainItem] : List (FoodItem × ItemEnv)) ≠ [] ∧
    getAggregateNutritionalValues [plainItem] = Except.ok plainAggResponse ∧
    plainAggResponse.totalGrams =
      round2 ((plainAggResponse.items.map AggregatedFoodItemDetail.gramsAmount).sum) ∧
    plainAggResponse.totals = roundAggregate (plainAggResponse.items.foldl
      (fun a d => addToAggregate a d.nutritionalValues) createEmptyAggregate) :=
  ⟨List.cons_ne_nil _ _, plainAgg_eval,
   (claim2_aggregate_rounding [plainItem] (List.cons_ne_nil _ _)
     plainAggResponse plainAgg_eval).2⟩

/-- Evaluation of one `getFoodNutritionalValues` call whose search document
yields a single candidate and whose serving oracle answers a positive gram
amount. -/
lemma getFood_eval_scaled (name sv : String) (env : ItemEnv) (c : FoodSearchResult)
    (g : ℚ) (hrows : parseSearchResults env.searchRows = [c])
    (hout : env.servingOutcome = OracleOutcome.content (some g))
    (hg : 0 < g) (hsv : jsTruthy (some sv) = true) :
    getFoodNutritionalValues name (some sv) env =
      Except.ok
        { searchQuery := name,
          selectedFood := c.name,
          nutritionalValues :=
            { scaleNutritionalValues (parseNutritionalValues env.detailPage c.name) (g / 100) with
              servingSize := toString g ++ "g (" ++ sv ++ ")" },
          sourceUrl := c.url,
          serving := some { userServing := sv, gramsAmount := g, multiplier := g / 100 } } := by
  unfold getFoodNutritionalValues
  rw [hrows]
  simp only [List.isEmpty_cons, Bool.false_eq_true, if_false]
  rw [show selectBestMatch name [c] env.selectOutcome = Except.ok (some c) from rfl]
  dsimp only
  rw [if_pos hsv]
  rw [hout]
  simp only [Option.getD_some]
  rw [show calculateServingSize name sv env.detailPage (OracleOutcome.content (some g)) =
      Except.ok (if 0 < g then g else 100) from rfl]
  rw [if_pos hg]

/-- Concrete evaluation for the half-serving item. -/
lemma halfFood_eval :
    getFoodNutritionalValues "teste" (some "metade") halfServingEnv =
      Except.ok halfResponse :=
  getFood_eval_scaled "teste" "metade" halfServingEnv halfCand 50 rfl rfl
    (by norm_num) rfl

/-- C2 counterexample: two identical items whose exact scaled kcal value is
0.005 each.  The scaler rounds per item (0.005 becomes 0.01), the aggregate
sums the rounded values and rounds once more, giving 0.02; rounding only
once at the end over the exact unrounded scaled values would give 0.01. -/
theorem claim2_counterexample :
    (getAggregateNutritionalValues [halfServingItem, halfServingItem]).map
        (fun r => r.totals.energy.kcal) = Except.ok (1 / 50) ∧
    round2 ((1 / 100 : ℚ) * (50 / 100) + (1 / 100) * (50 / 100)) = 1 / 100 ∧
    ((1 / 50 : ℚ) ≠ 1 / 100) := by
  have hkcal : (parseNutritionalValues halfDetailPage "Teste").energy.kcal = 1 / 100 := by
    show (List.foldl energyStep (0, 0) ["0,01kcal"]).2 = 1 / 100
    rw [List.foldl_cons]
    show (energyStep (0, 0) "0,01kcal").2 = 1 / 100
    unfold energyStep
    rw [show jsIncludes "0,01kcal" "kj" = false from by decide]
    rw [show jsIncludes "0,01kcal" "kcal" = true from by decide]
    simp only [Bool.false_eq_true, if_false, if_true]
    show parseNumberDetail "0,01kcal" = 1 / 100
    show (jsParseFloat (cleanNumericText "0,01kcal")).getD 0 = 1 / 100
    rw [show cleanNumericText "0,01kcal" = "0.01" from by decide]
    show ((parseDigits ['0', '.', '0', '1']).map
      (fun p => mantissaVal p.1 p.2.1 p.2.2)).getD 0 = 1 / 100
    rw [show parseDigits ['0', '.', '0', '1'] = some (0, 1, 2) from by decide]
    simp only [Option.map_some', Option.getD_some]
    unfold mantissaVal
    norm_num
  have hsc : halfResponse.nutritionalValues.energy.kcal = 1 / 100 := by
    show round2 ((parseNutritionalValues halfDetailPage "Teste").energy.kcal * (50 / 100)) =
      1 / 100
    rw [hkcal]
    norm_num [round2, jsRound]
  have hfood : getFoodNutritionalValues halfServingItem.1.foodName
      (some halfServingItem.1.serving) halfServingItem.2 = Except.ok halfResponse :=
    halfFood_eval
  have hstep1 : aggStep { aggregate := createEmptyAggregate, totalGrams := 0, details := [] }
      halfServingItem = Except.ok
        { aggregate := addToAggregate createEmptyAggregate halfResponse.nutritionalValues,
          totalGrams := 0 + gramsOf halfResponse,
          details := [mkDetail halfServingItem.1 halfResponse] } := by
    unfold aggStep
    rw [hfood]
    rfl
  have hstep2 : aggStep
      { aggregate := addToAggregate createEmptyAggregate halfResponse.nutritionalValues,
        totalGrams := 0 + gramsOf halfResponse,
        details := [mkDetail halfServingItem.1 halfResponse] }
      halfServingItem = Except.ok
        { aggregate := addToAggregate
            (addToAggregate createEmptyAggregate halfResponse.nutritionalValues)
            halfResponse.nutritionalValues,
          totalGrams := 0 + gramsOf halfResponse + gramsOf halfResponse,
          details := [mkDetail halfServingItem.1 halfResponse,
                      mkDetail halfServingItem.1 halfResponse] } := by
    unfold aggStep
    rw [hfood]
    rfl
  have hloop : aggLoop { aggregate := createEmptyAggregate, totalGrams := 0, details := [] }
      [halfServingItem, halfServingItem] = Except.ok
        { aggregate := addToAggregate
            (addToAggregate createEmptyAggregate halfResponse.nutritionalValues)
            halfResponse.nutritionalValues,
          totalGrams := 0 + gramsOf halfResponse + gramsOf halfResponse,
          details := [mkDetail halfServingItem.1 halfResponse,
                      mkDetail halfServingItem.1 halfResponse] } := by
    show (match aggStep { aggregate := createEmptyAggregate, totalGrams := 0, details := [] }
        halfServingItem with
      | Except.error e => Except.error e
      | Except.ok st1 => aggLoop st1 [halfServingItem]) = _
    rw [hstep1]
    show (match aggStep
        { aggregate := addToAggregate createEmptyAggregate halfResponse.nutritionalValues,
          totalGrams := 0 + gramsOf halfResponse,
          details := [mkDetail halfServingItem.1 halfResponse] }
        halfServingItem with
      | Except.error e => Except.error e
      | Except.ok st1 => aggLoop st1 []) = _
    rw [hstep2]
    rfl
  refine ⟨?_, by norm_num [round2, jsRound], by norm_num⟩
  unfold getAggregateNutritionalValues
  simp only [List.isEmpty_cons, Bool.false_eq_true, if_false]
  rw [hloop]
  show Except.ok (round2 (createEmptyAggregate.energy.kcal +
      halfResponse.nutritionalValues.energy.kcal + halfResponse.nutritionalValues.energy.kcal))
    = Except.ok (1 / 50)
  rw [hsc]
  rw [show createEmptyAggregate.energy.kcal = 0 from rfl]
  norm_num [round2, jsRound]
